import Mathlib

/-!
Verification of the authenticated-HTTP-client core of the ReelsAI frontend
(`src/lib/axios.ts`): token store backed by `localStorage`, request
interceptor attaching the bearer header, and the 401/refresh coordinator
(response interceptor).

The embedding is event-driven, matching the single-threaded JS model: the
response interceptor runs synchronously up to the `await axios.post` of the
refresh call (`responseErrorInterceptor`), and the continuation after the
refresh settles is a second synchronous step (`onRefreshSettled`).  Promise
continuations of queued calls run strictly after these synchronous blocks,
so each step function returns the state observable by any continuation
together with a description of the effects (rejections, enqueues, retries).
-/

set_option maxRecDepth 10000

namespace ReelsAI

/-! Section: the localStorage model

`localStorage` is a string-keyed map of strings.  JS `getItem` returns
`null` for a missing key, modelled as `none`. -/

def Storage : Type := String → Option String

def Storage.getItem (s : Storage) (key : String) : Option String := s key

def Storage.setItem (s : Storage) (key value : String) : Storage :=
  fun k => if k = key then some value else s k

def Storage.removeItem (s : Storage) (key : String) : Storage :=
  fun k => if k = key then none else s k

def emptyStorage : Storage := fun _ => none

/-- JS truthiness of a `string | null` value: `null` and `""` are falsy. -/
def truthy : Option String → Bool
  | none => false
  | some s => s ≠ ""

/-! Section: the token store (`setAccessToken` … `clearTokens`, axios.ts lines 14-37)

`setAccessToken`/`setRefreshToken` guard with `if (token)`, which is JS
truthiness: a `null` argument *and* the empty string both take the
`removeItem` branch. -/

def setAccessToken (s : Storage) (token : Option String) : Storage :=
  if truthy token then s.setItem "accessToken" (token.getD "")
  else s.removeItem "accessToken"

def getAccessToken (s : Storage) : Option String := s.getItem "accessToken"

def getRefreshToken (s : Storage) : Option String := s.getItem "refreshToken"

def setRefreshToken (s : Storage) (token : Option String) : Storage :=
  if truthy token then s.setItem "refreshToken" (token.getD "")
  else s.removeItem "refreshToken"

def clearTokens (s : Storage) : Storage :=
  (s.removeItem "accessToken").removeItem "refreshToken"

/-! Section: requests and errors -/

/-- An axios request config (`InternalAxiosRequestConfig & { _retry?: boolean }`).
`authorization` is the `Authorization` entry of `config.headers` (axios
guarantees `headers` is present on an internal config, so the defensive
`if (config.headers)` / `if (originalRequest.headers)` checks in the source
are always taken); `otherHeaders` stands for every other header, and
`_retry` is the one-shot retry marker the coordinator adds. -/
structure AxiosCall where
  url : Option String
  _retry : Bool := false
  authorization : Option String := none
  otherHeaders : List (String × String) := []
  deriving Repr, DecidableEq

/-- An axios rejection value: `status` is `error.response?.status` (`none`
for network errors, where `response` is `undefined`), `config` is
`error.config`. -/
structure AxiosError where
  status : Option Nat
  config : AxiosCall
  deriving Repr, DecidableEq

/-- A value a promise can be rejected with in this flow: a fresh
`new Error(message)` or a propagated axios error. -/
inductive CoordError where
  | jsErr (message : String)
  | axiosErr (e : AxiosError)
  deriving Repr, DecidableEq

/-! Section: substring matching, JS String.prototype.includes -/

def charListIsPrefix : List Char → List Char → Bool
  | [], _ => true
  | _ :: _, [] => false
  | a :: as, b :: bs => a = b && charListIsPrefix as bs

def charListContains (pat : List Char) : List Char → Bool
  | [] => pat.isEmpty
  | c :: rest => charListIsPrefix pat (c :: rest) || charListContains pat rest

/-- JS `s.includes(pat)`: `pat` occurs as a contiguous substring of `s`
(always true for the empty pattern). -/
def strIncludes (s pat : String) : Bool := charListContains pat.data s.data

/-- axios.ts lines 77-79: `originalRequest.url?.includes(...)` over the three
exempt endpoint paths; an `undefined` url makes every disjunct falsy. -/
def isAuthEndpoint : Option String → Bool
  | none => false
  | some u =>
      strIncludes u "/auth/signin" || strIncludes u "/auth/register" ||
        strIncludes u "/auth/token/refresh"

/-! Section: the request interceptor, axios.ts lines 40-49 -/

/-- The request interceptor: attach `Bearer <token>` when
`getAccessToken()` is truthy (non-null, non-empty), otherwise leave the
config untouched. -/
def requestInterceptor (s : Storage) (config : AxiosCall) : AxiosCall :=
  let token := getAccessToken s
  if truthy token then
    { config with authorization := some ("Bearer " ++ token.getD "") }
  else config

/-- The success-response interceptor `(response) => response`. -/
def responseInterceptorFulfilled {α : Type} (response : α) : α := response

/-! Section: the refresh coordinator state, axios.ts lines 52-67

The module-level mutable state: `localStorage`, the `isRefreshing` flag,
the `failedQueue` of pending continuations (each continuation captures one
queued original request; FIFO, `push` appends at the tail), and
`window.location.href` (`none` while no redirect has been issued). -/

structure CoordState where
  storage : Storage
  isRefreshing : Bool := false
  failedQueue : List AxiosCall := []
  locationHref : Option String := none

/-- Model of `processQueue(error)` (axios.ts lines 58-67): each queued continuation,
in queue (FIFO) order, is rejected with `error` when one is given and
resolved otherwise; the caller then observes `failedQueue = []`.  The
result pairs each queued request with the rejection it received (`none`
means resolved). -/
def processQueue (failedQueue : List AxiosCall) (error : Option CoordError) :
    List (AxiosCall × Option CoordError) :=
  failedQueue.map (fun prom => (prom, error))

/-- What the response-error interceptor does for one rejected call, up to
its first suspension point (axios.ts lines 71-119). -/
inductive Phase1 where
  /-- Propagation, `Promise.reject(error)`: the error is propagated to the caller
  unchanged (non-401 status, network error, already-retried call, or
  exempt auth endpoint). -/
  | reject (e : AxiosError)
  /-- A refresh is already in flight: a continuation for this call was
  pushed onto `failedQueue`; the call stays pending. -/
  | enqueued
  /-- No refresh token in storage (lines 105-113): tokens cleared, queued
  continuations rejected with `new Error('No refresh token available')`,
  redirect to `/auth/sign-in`, and the original call rejected with
  `originalRejection`. -/
  | noRefreshTerminal (originalRejection : CoordError)
      (queueOutcomes : List (AxiosCall × Option CoordError))
  /-- A refresh request `POST /auth/token/refresh/ { refresh }` was issued
  (line 117); `marked` is the original request, now carrying
  `_retry = true`. -/
  | refreshStarted (refreshToken : String) (marked : AxiosCall)
  deriving Repr, DecidableEq

/-- The response-error interceptor (axios.ts lines 71-119), run
synchronously from the rejection up to the `await axios.post` of the
refresh call (or to an early return). -/
def responseErrorInterceptor (st : CoordState) (error : AxiosError) :
    CoordState × Phase1 :=
  let originalRequest := error.config
  if error.status = some 401 ∧ originalRequest._retry = false then
    if isAuthEndpoint originalRequest.url then
      (st, .reject error)
    else if st.isRefreshing then
      ({ st with failedQueue := st.failedQueue ++ [originalRequest] }, .enqueued)
    else
      let marked : AxiosCall := { originalRequest with _retry := true }
      let refreshToken := getRefreshToken st.storage
      if truthy refreshToken then
        ({ st with isRefreshing := true }, .refreshStarted (refreshToken.getD "") marked)
      else
        ({ st with storage := clearTokens st.storage,
                   failedQueue := [],
                   isRefreshing := false,
                   locationHref := some "/auth/sign-in" },
         .noRefreshTerminal (.axiosErr { error with config := marked })
           (processQueue st.failedQueue (some (.jsErr "No refresh token available"))))
  else
    (st, .reject error)

/-- How the refresh request settles: `response.data.access` on success, or
the value the refresh promise was rejected with. -/
inductive RefreshOutcome where
  | success (access : String)
  | failure (refreshError : CoordError)
  deriving Repr, DecidableEq

/-- The effects of the continuation after the refresh settles
(axios.ts lines 121-141). -/
inductive Phase2 where
  /-- Refresh succeeded: new access token stored, queued continuations
  resolved (each will retry via `retryQueuedCall`), and the marked
  original request re-dispatched with the fresh bearer header. -/
  | retryOriginal (retried : AxiosCall)
      (queueOutcomes : List (AxiosCall × Option CoordError))
  /-- Refresh failed: queued continuations and the original call are all
  rejected with `refreshError`, tokens cleared, redirect issued. -/
  | sessionEnded (refreshError : CoordError)
      (queueOutcomes : List (AxiosCall × Option CoordError))
  deriving Repr, DecidableEq

/-- Continuation of the interceptor after `await axios.post(...)` settles
(axios.ts lines 121-141).  `originalRequest` is the marked request the
`refreshStarted` step produced. -/
def onRefreshSettled (st : CoordState) (originalRequest : AxiosCall)
    (outcome : RefreshOutcome) : CoordState × Phase2 :=
  match outcome with
  | .success newAccessToken =>
      ({ st with storage := setAccessToken st.storage (some newAccessToken),
                 failedQueue := [],
                 isRefreshing := false },
       .retryOriginal
         { originalRequest with authorization := some ("Bearer " ++ newAccessToken) }
         (processQueue st.failedQueue none))
  | .failure refreshError =>
      ({ st with storage := clearTokens st.storage,
                 failedQueue := [],
                 isRefreshing := false,
                 locationHref := some "/auth/sign-in" },
       .sessionEnded refreshError (processQueue st.failedQueue (some refreshError)))

/-- The `.then` of a queued continuation (axios.ts lines 91-96): set
`Authorization` from the *current* `getAccessToken()` and re-dispatch the
original request.  JS template-literal semantics: a `null` token renders
as the string `"null"`. -/
def retryQueuedCall (storage : Storage) (originalRequest : AxiosCall) : AxiosCall :=
  { originalRequest with
      authorization :=
        some ("Bearer " ++ (match getAccessToken storage with
                            | some t => t
                            | none => "null")) }

/-! Section: batches of concurrent 401 rejections

Several calls can receive a 401 in the same event-loop window, before the
refresh call settles; the interceptor then runs once per rejection,
back-to-back on the shared module state. -/

/-- Run the response-error interceptor on a list of rejections in order,
threading the coordinator state, and collect the per-call outcomes. -/
def runBatch (st : CoordState) (errs : List AxiosError) :
    CoordState × List Phase1 :=
  match errs with
  | [] => (st, [])
  | e :: rest =>
      let step := responseErrorInterceptor st e
      let next := runBatch step.1 rest
      (next.1, step.2 :: next.2)

/-- Count how many of the outcomes issued a refresh request. -/
def countRefreshStarts (rs : List Phase1) : Nat :=
  (rs.filter fun r =>
    match r with
    | .refreshStarted _ _ => true
    | _ => false).length

/-- A rejection that reaches the refresh logic: status 401, not yet
retried, and not on an exempt auth endpoint (the guards of axios.ts
lines 75-84). -/
def triggers401 (e : AxiosError) : Prop :=
  e.status = some 401 ∧ e.config._retry = false ∧
    isAuthEndpoint e.config.url = false

instance (e : AxiosError) : Decidable (triggers401 e) := by
  unfold triggers401; infer_instance

/-! Section: a concrete trace, used to examine the retry marker on queued
calls.  A call to `/profile` triggers the refresh, a call to `/feeds/1` is
queued meanwhile, the refresh succeeds, and the queued call is retried. -/

/-- Storage holding access token `"old"` and refresh token `"rtok"`. -/
def scnStorage : Storage :=
  setRefreshToken (setAccessToken emptyStorage (some "old")) (some "rtok")

/-- The idle coordinator over `scnStorage`. -/
def scnIdle : CoordState := { storage := scnStorage }

/-- First 401: the call to `/profile` starts the refresh (and is marked). -/
def scnStep1 : CoordState × Phase1 :=
  responseErrorInterceptor scnIdle
    { status := some 401, config := { url := some "/profile" } }

/-- Second 401 while the refresh is in flight: `/feeds/1` is enqueued. -/
def scnStep2 : CoordState × Phase1 :=
  responseErrorInterceptor scnStep1.1
    { status := some 401, config := { url := some "/feeds/1" } }

/-- The refresh succeeds with the new access token `"new"`. -/
def scnStep3 : CoordState × Phase2 :=
  onRefreshSettled scnStep2.1 { url := some "/profile", _retry := true }
    (.success "new")

/-- The resolved `/feeds/1` continuation retries its original request. -/
def scnRetried : AxiosCall := retryQueuedCall scnStep3.1.storage { url := some "/feeds/1" }

/-- The retried `/feeds/1` call fails with 401 a second time. -/
def scnStep4 : CoordState × Phase1 :=
  responseErrorInterceptor scnStep3.1 { status := some 401, config := scnRetried }

/-! Section: storage helper lemmas -/

theorem getItem_setItem_self (s : Storage) (k v : String) :
    (s.setItem k v).getItem k = some v := by
  simp [Storage.getItem, Storage.setItem]

theorem getItem_setItem_ne (s : Storage) (k k' v : String) (h : k' ≠ k) :
    (s.setItem k v).getItem k' = s.getItem k' := by
  simp [Storage.getItem, Storage.setItem, h]

theorem getItem_removeItem_self (s : Storage) (k : String) :
    (s.removeItem k).getItem k = none := by
  simp [Storage.getItem, Storage.removeItem]

theorem getItem_removeItem_ne (s : Storage) (k k' : String) (h : k' ≠ k) :
    (s.removeItem k).getItem k' = s.getItem k' := by
  simp [Storage.getItem, Storage.removeItem, h]

theorem getAccessToken_clearTokens (s : Storage) :
    getAccessToken (clearTokens s) = none := by
  rw [getAccessToken, clearTokens, getItem_removeItem_ne _ _ _ (by decide),
    getItem_removeItem_self]

theorem getRefreshToken_clearTokens (s : Storage) :
    getRefreshToken (clearTokens s) = none := by
  rw [getRefreshToken, clearTokens, getItem_removeItem_self]

theorem getAccessToken_setAccessToken_truthy (s : Storage) (t : String)
    (h : t ≠ "") : getAccessToken (setAccessToken s (some t)) = some t := by
  rw [getAccessToken, setAccessToken]
  simp [truthy, h, getItem_setItem_self]

theorem getRefreshToken_setRefreshToken_truthy (s : Storage) (t : String)
    (h : t ≠ "") : getRefreshToken (setRefreshToken s (some t)) = some t := by
  rw [getRefreshToken, setRefreshToken]
  simp [truthy, h, getItem_setItem_self]

theorem getAccessToken_setAccessToken_falsy (s : Storage) (v : Option String)
    (h : truthy v = false) : getAccessToken (setAccessToken s v) = none := by
  rw [getAccessToken, setAccessToken]
  simp [h, getItem_removeItem_self]

theorem getRefreshToken_setRefreshToken_falsy (s : Storage) (v : Option String)
    (h : truthy v = false) : getRefreshToken (setRefreshToken s v) = none := by
  rw [getRefreshToken, setRefreshToken]
  simp [h, getItem_removeItem_self]

theorem getRefreshToken_setAccessToken (s : Storage) (v : Option String) :
    getRefreshToken (setAccessToken s v) = getRefreshToken s := by
  rw [getRefreshToken, getRefreshToken, setAccessToken]
  split
  · exact getItem_setItem_ne _ _ _ _ (by decide)
  · exact getItem_removeItem_ne _ _ _ (by decide)

theorem getAccessToken_setRefreshToken (s : Storage) (v : Option String) :
    getAccessToken (setRefreshToken s v) = getAccessToken s := by
  rw [getAccessToken, getAccessToken, setRefreshToken]
  split
  · exact getItem_setItem_ne _ _ _ _ (by decide)
  · exact getItem_removeItem_ne _ _ _ (by decide)

/-! Section: claim C10, the token-store round trip -/

/-- C10 counterexample: the claim asserts the round trip for *every*
string `t`, but `setAccessToken("")` takes the falsy branch of
`if (token)` and removes the key, so reading back yields `null`,
not `""`. -/
theorem set_empty_access_token_cex :
    getAccessToken (setAccessToken emptyStorage (some "")) = none ∧
    (none : Option String) ≠ some "" := by decide

/-- C10 (amended): the round trip `get ∘ set = id` holds for every
non-empty token string; `setAccessToken`/`setRefreshToken` with `null`
*or* with the empty string clear the stored value (JS truthiness of
`if (token)`); and each setter leaves the other credential untouched. -/
theorem token_store_roundtrip (s : Storage) (t u : String)
    (ht : t ≠ "") (hu : u ≠ "") :
    getAccessToken (setAccessToken s (some t)) = some t ∧
    getAccessToken (setAccessToken s none) = none ∧
    getAccessToken (setAccessToken s (some "")) = none ∧
    getRefreshToken (setRefreshToken s (some u)) = some u ∧
    getRefreshToken (setRefreshToken s none) = none ∧
    getRefreshToken (setRefreshToken s (some "")) = none ∧
    (∀ v, getRefreshToken (setAccessToken s v) = getRefreshToken s) ∧
    (∀ v, getAccessToken (setRefreshToken s v) = getAccessToken s) :=
  ⟨getAccessToken_setAccessToken_truthy s t ht,
   getAccessToken_setAccessToken_falsy s none (by decide),
   getAccessToken_setAccessToken_falsy s (some "") (by decide),
   getRefreshToken_setRefreshToken_truthy s u hu,
   getRefreshToken_setRefreshToken_falsy s none (by decide),
   getRefreshToken_setRefreshToken_falsy s (some "") (by decide),
   fun v => getRefreshToken_setAccessToken s v,
   fun v => getAccessToken_setRefreshToken s v⟩

/-- C10 witness: the amended round trip at concrete tokens. -/
theorem token_store_roundtrip_witness :
    ("tokA" : String) ≠ "" ∧ ("tokR" : String) ≠ "" ∧
    getAccessToken (setAccessToken emptyStorage (some "tokA")) = some "tokA" ∧
    getRefreshToken (setRefreshToken emptyStorage (some "tokR")) = some "tokR" :=
  ⟨by decide, by decide,
   (token_store_roundtrip emptyStorage "tokA" "tokR" (by decide) (by decide)).1,
   (token_store_roundtrip emptyStorage "tokA" "tokR" (by decide) (by decide)).2.2.2.1⟩

/-! Section: claim C7, the request interceptor -/

/-- C7 counterexample: with the raw `localStorage` value `""` stored under
`accessToken` (a present credential), `if (token && config.headers)` is
falsy and the interceptor attaches nothing, leaving the request
unchanged — the claim instead demands the header on every call with a
credential present. -/
theorem empty_access_token_not_attached_cex :
    getAccessToken (emptyStorage.setItem "accessToken" "") = some "" ∧
    requestInterceptor (emptyStorage.setItem "accessToken" "")
      { url := some "/feeds/1" } = { url := some "/feeds/1" } ∧
    ({ url := some "/feeds/1" } : AxiosCall).authorization = none := by decide

/-- C7 (amended): the request interceptor attaches
`Authorization: Bearer <token>` whenever the stored access credential is
*non-empty*, mutating no other field of the request; when the credential
is absent or the empty string it returns the request unchanged. -/
theorem requestInterceptor_attach_or_unchanged (s s₀ : Storage)
    (c c₀ : AxiosCall) (t : String)
    (hp : getAccessToken s = some t) (ht : t ≠ "")
    (h₀ : truthy (getAccessToken s₀) = false) :
    (requestInterceptor s c).authorization = some ("Bearer " ++ t) ∧
    (requestInterceptor s c).url = c.url ∧
    (requestInterceptor s c)._retry = c._retry ∧
    (requestInterceptor s c).otherHeaders = c.otherHeaders ∧
    requestInterceptor s₀ c₀ = c₀ := by
  have h5 : requestInterceptor s₀ c₀ = c₀ := by
    simp only [requestInterceptor]
    simp [h₀]
  refine ⟨?_, ?_, ?_, ?_, h5⟩ <;> simp [requestInterceptor, hp, truthy, ht]

/-- C7 witness: the amended statement at a concrete store and request. -/
theorem requestInterceptor_attach_or_unchanged_witness :
    getAccessToken (setAccessToken emptyStorage (some "tok")) = some "tok" ∧
    truthy (getAccessToken emptyStorage) = false ∧
    (requestInterceptor (setAccessToken emptyStorage (some "tok"))
      { url := some "/feeds/1" }).authorization = some "Bearer tok" ∧
    requestInterceptor emptyStorage { url := some "/feeds/1" } =
      { url := some "/feeds/1" } :=
  ⟨by decide, by decide,
   (requestInterceptor_attach_or_unchanged (setAccessToken emptyStorage (some "tok"))
     emptyStorage { url := some "/feeds/1" } { url := some "/feeds/1" } "tok"
     (by decide) (by decide) (by decide)).1,
   (requestInterceptor_attach_or_unchanged (setAccessToken emptyStorage (some "tok"))
     emptyStorage { url := some "/feeds/1" } { url := some "/feeds/1" } "tok"
     (by decide) (by decide) (by decide)).2.2.2.2⟩

/-! Section: claim C3, exempt auth endpoints -/

/-- C3: a 401 on a request whose url contains one of the exempt endpoint
paths is propagated to the caller as-is (`Promise.reject(error)`), with the
whole coordinator state — storage, `isRefreshing`, `failedQueue` and the
browser location — unchanged, and no refresh issued (this holds whether or
not the request carries the retry marker). -/
theorem exempt_endpoint_passthrough (st : CoordState) (e : AxiosError)
    (h401 : e.status = some 401) (hx : isAuthEndpoint e.config.url = true) :
    responseErrorInterceptor st e = (st, .reject e) := by
  rw [responseErrorInterceptor]
  cases hr : e.config._retry
  · simp [h401, hr, hx]
  · simp [h401, hr]

/-- C3 witness: a 401 on `/auth/signin` passes through unchanged. -/
theorem exempt_endpoint_passthrough_witness :
    ({ status := some 401, config := { url := some "/auth/signin" } } :
        AxiosError).status = some 401 ∧
    isAuthEndpoint (some "/auth/signin") = true ∧
    responseErrorInterceptor { storage := emptyStorage }
        { status := some 401, config := { url := some "/auth/signin" } } =
      ({ storage := emptyStorage },
       .reject { status := some 401, config := { url := some "/auth/signin" } }) :=
  ⟨rfl, by decide,
   exempt_endpoint_passthrough { storage := emptyStorage }
     { status := some 401, config := { url := some "/auth/signin" } }
     rfl (by decide)⟩

/-! Section: claim C9, non-auth failures and successes pass through -/

/-- C9: any rejection whose response status is not 401 — network errors
(`error.response` is `undefined`, so the status is `none`) and every other
HTTP status — is propagated to the caller unchanged with the coordinator
state untouched (no refresh, no storage write, no redirect), and the
success interceptor returns every response unchanged. -/
theorem non_auth_passthrough {α : Type} (st : CoordState) (e : AxiosError)
    (r : α) (h : e.status ≠ some 401) :
    responseErrorInterceptor st e = (st, .reject e) ∧
    responseInterceptorFulfilled r = r := by
  refine ⟨?_, rfl⟩
  rw [responseErrorInterceptor]
  simp [h]

/-- C9 witness: a 500 response passes through unchanged. -/
theorem non_auth_passthrough_witness :
    ({ status := some 500, config := { url := some "/feeds/1" } } :
        AxiosError).status ≠ some 401 ∧
    responseErrorInterceptor { storage := emptyStorage }
        { status := some 500, config := { url := some "/feeds/1" } } =
      ({ storage := emptyStorage },
       .reject { status := some 500, config := { url := some "/feeds/1" } }) ∧
    responseInterceptorFulfilled (200 : Nat) = 200 :=
  ⟨by decide,
   (non_auth_passthrough { storage := emptyStorage }
     { status := some 500, config := { url := some "/feeds/1" } }
     (200 : Nat) (by decide)).1,
   (non_auth_passthrough { storage := emptyStorage }
     { status := some 500, config := { url := some "/feeds/1" } }
     (200 : Nat) (by decide)).2⟩

/-! Section: interceptor step lemmas -/

theorem enqueue_step (st : CoordState) (e : AxiosError)
    (h : triggers401 e) (hf : st.isRefreshing = true) :
    responseErrorInterceptor st e =
      ({ st with failedQueue := st.failedQueue ++ [e.config] }, .enqueued) := by
  obtain ⟨h1, h2, h3⟩ := h
  rw [responseErrorInterceptor]
  simp [h1, h2, h3, hf]

theorem refresh_start_step (st : CoordState) (e : AxiosError)
    (h : triggers401 e) (hf : st.isRefreshing = false)
    (ht : truthy (getRefreshToken st.storage) = true) :
    responseErrorInterceptor st e =
      ({ st with isRefreshing := true },
       .refreshStarted ((getRefreshToken st.storage).getD "")
         { e.config with _retry := true }) := by
  obtain ⟨h1, h2, h3⟩ := h
  rw [responseErrorInterceptor]
  simp [h1, h2, h3, hf, ht]

theorem reject_step (st : CoordState) (e : AxiosError)
    (h : ¬ triggers401 e) :
    responseErrorInterceptor st e = (st, .reject e) := by
  rw [responseErrorInterceptor]
  by_cases h1 : e.status = some 401 ∧ e.config._retry = false
  · have hx : isAuthEndpoint e.config.url = true := by
      rcases Bool.eq_false_or_eq_true (isAuthEndpoint e.config.url) with hb | hb
      · exact hb
      · exact absurd ⟨h1.1, h1.2, hb⟩ h
    simp [h1, hx]
  · simp [h1]

theorem no_refresh_step (st : CoordState) (e : AxiosError)
    (h : triggers401 e) (hf : st.isRefreshing = false)
    (ht : truthy (getRefreshToken st.storage) = false) :
    responseErrorInterceptor st e =
      ({ storage := clearTokens st.storage, isRefreshing := false,
         failedQueue := [], locationHref := some "/auth/sign-in" },
       Phase1.noRefreshTerminal
         (.axiosErr { e with config := { e.config with _retry := true } })
         (processQueue st.failedQueue
           (some (.jsErr "No refresh token available")))) := by
  obtain ⟨h1, h2, h3⟩ := h
  rw [responseErrorInterceptor]
  simp [h1, h2, h3, hf, ht]

theorem runBatch_refreshing (errs : List AxiosError) :
    ∀ st : CoordState, st.isRefreshing = true →
    (∀ x ∈ errs, triggers401 x) →
    runBatch st errs =
      ({ st with failedQueue := st.failedQueue ++ errs.map (fun x => x.config) },
       errs.map (fun _ => Phase1.enqueued)) := by
  induction errs with
  | nil => intro st hf _; simp [runBatch]
  | cons e rest ih =>
      intro st hf hall
      have h := hall e (List.mem_cons_self e rest)
      have hrest : ∀ x ∈ rest, triggers401 x :=
        fun x hx => hall x (List.mem_cons_of_mem e hx)
      simp only [runBatch]
      rw [enqueue_step st e h hf, ih _ (by simp [hf]) hrest]
      simp

theorem countRefreshStarts_enqueued (l : List AxiosError) :
    countRefreshStarts (l.map (fun _ => Phase1.enqueued)) = 0 := by
  induction l with
  | nil => rfl
  | cons a l _ =>
      rw [List.map_cons]
      simp [countRefreshStarts, List.filter]

theorem countRefreshStarts_cons_start (rt : String) (m : AxiosCall)
    (rs : List Phase1) :
    countRefreshStarts (Phase1.refreshStarted rt m :: rs) =
      countRefreshStarts rs + 1 := by
  simp [countRefreshStarts, List.filter]

/-! Section: claim C1, at most one refresh in flight -/

/-- C1: starting from `Idle` with a truthy refresh token, processing any
batch of `N ≥ 2` concurrent 401 rejections (all non-exempt, none yet
retried) issues exactly one refresh request: the first rejection starts
the refresh, every later one is enqueued onto `failedQueue` (where it
stays pending — only `onRefreshSettled` ever drains the queue), and in
general any qualifying 401 that arrives while `isRefreshing = true` is
pushed onto the queue without issuing a refresh. -/
theorem single_refresh_in_flight (st : CoordState) (e : AxiosError)
    (rest : List AxiosError)
    (hidle : st.isRefreshing = false) (hq : st.failedQueue = [])
    (hrt : truthy (getRefreshToken st.storage) = true)
    (hN : rest ≠ [])
    (hall : ∀ x ∈ e :: rest, triggers401 x) :
    countRefreshStarts (runBatch st (e :: rest)).2 = 1 ∧
    (∀ r ∈ ((runBatch st (e :: rest)).2).tail, r = Phase1.enqueued) ∧
    (runBatch st (e :: rest)).1.isRefreshing = true ∧
    (runBatch st (e :: rest)).1.failedQueue = rest.map (fun x => x.config) ∧
    (∀ st' e', st'.isRefreshing = true → triggers401 e' →
      responseErrorInterceptor st' e' =
        ({ st' with failedQueue := st'.failedQueue ++ [e'.config] },
         Phase1.enqueued)) := by
  have he := hall e (List.mem_cons_self e rest)
  have hrest : ∀ x ∈ rest, triggers401 x :=
    fun x hx => hall x (List.mem_cons_of_mem e hx)
  have hrun : runBatch st (e :: rest) =
      ({ st with isRefreshing := true,
                 failedQueue := rest.map (fun x => x.config) },
       Phase1.refreshStarted ((getRefreshToken st.storage).getD "")
           { e.config with _retry := true } ::
         rest.map (fun _ => Phase1.enqueued)) := by
    simp only [runBatch]
    rw [refresh_start_step st e he hidle hrt,
      runBatch_refreshing rest _ (by simp) hrest]
    simp [hq]
  rw [hrun]
  refine ⟨?_, ?_, rfl, rfl, fun st' e' hf' h' => enqueue_step st' e' h' hf'⟩
  · rw [countRefreshStarts_cons_start, countRefreshStarts_enqueued]
  · intro r hr
    simp only [List.tail_cons, List.mem_map] at hr
    obtain ⟨x, _, hx⟩ := hr
    exact hx.symm

/-- C1 witness: two concurrent 401s from `Idle`, one refresh started, the
second call left pending on the queue. -/
theorem single_refresh_in_flight_witness :
    truthy (getRefreshToken (setRefreshToken emptyStorage (some "rt"))) = true ∧
    countRefreshStarts (runBatch { storage := setRefreshToken emptyStorage (some "rt") }
      [{ status := some 401, config := { url := some "/feeds/1" } },
       { status := some 401, config := { url := some "/feeds/2" } }]).2 = 1 ∧
    (runBatch { storage := setRefreshToken emptyStorage (some "rt") }
      [{ status := some 401, config := { url := some "/feeds/1" } },
       { status := some 401, config := { url := some "/feeds/2" } }]).1.failedQueue =
      [{ url := some "/feeds/2" }] :=
  ⟨by decide,
   (single_refresh_in_flight { storage := setRefreshToken emptyStorage (some "rt") }
     { status := some 401, config := { url := some "/feeds/1" } }
     [{ status := some 401, config := { url := some "/feeds/2" } }]
     rfl rfl (by decide) (by decide) (by decide)).1,
   (single_refresh_in_flight { storage := setRefreshToken emptyStorage (some "rt") }
     { status := some 401, config := { url := some "/feeds/1" } }
     [{ status := some 401, config := { url := some "/feeds/2" } }]
     rfl rfl (by decide) (by decide) (by decide)).2.2.2.1⟩

/-! Section: claim C6, FIFO drain of the pending queue -/

/-- C6: when the in-flight refresh settles, `failedQueue` is drained to
empty in the same synchronous step, and the continuation outcomes keep the
queue's FIFO enqueue order (each queued request is resolved on success and
rejected with the refresh error on failure, in list order); the queue
never gains an element while `isRefreshing = false` (it is either left
alone or emptied), and an element is appended — at the tail — exactly by a
qualifying 401 arriving while `isRefreshing = true`. -/
theorem queue_fifo_drain (st : CoordState) (c : AxiosCall) (a : String)
    (err : CoordError) :
    (onRefreshSettled st c (.success a)).1.failedQueue = [] ∧
    (onRefreshSettled st c (.failure err)).1.failedQueue = [] ∧
    (onRefreshSettled st c (.success a)).2 =
      Phase2.retryOriginal { c with authorization := some ("Bearer " ++ a) }
        (st.failedQueue.map (fun q => (q, (none : Option CoordError)))) ∧
    (onRefreshSettled st c (.failure err)).2 =
      Phase2.sessionEnded err (st.failedQueue.map (fun q => (q, some err))) ∧
    (∀ st' e', st'.isRefreshing = false →
      (responseErrorInterceptor st' e').1.failedQueue = st'.failedQueue ∨
      (responseErrorInterceptor st' e').1.failedQueue = []) ∧
    (∀ st' e', st'.isRefreshing = true → triggers401 e' →
      (responseErrorInterceptor st' e').1.failedQueue =
        st'.failedQueue ++ [e'.config]) := by
  refine ⟨rfl, rfl, rfl, rfl, ?_, ?_⟩
  · intro st' e' hf'
    rw [responseErrorInterceptor]
    split_ifs <;> try simp_all
    split_ifs <;> simp_all
  · intro st' e' hf' h'
    rw [enqueue_step st' e' h' hf']

/-- C6 witness: a two-element queue is drained to empty in enqueue order,
both on success and on failure. -/
theorem queue_fifo_drain_witness :
    (onRefreshSettled
        { storage := emptyStorage, isRefreshing := true,
          failedQueue := [{ url := some "/feeds/1" }, { url := some "/feeds/2" }] }
        { url := some "/profile", _retry := true } (.success "new")).2 =
      Phase2.retryOriginal
        { url := some "/profile", _retry := true,
          authorization := some "Bearer new" }
        [({ url := some "/feeds/1" }, none), ({ url := some "/feeds/2" }, none)] ∧
    (onRefreshSettled
        { storage := emptyStorage, isRefreshing := true,
          failedQueue := [{ url := some "/feeds/1" }, { url := some "/feeds/2" }] }
        { url := some "/profile", _retry := true }
        (.failure (.jsErr "boom"))).1.failedQueue = [] :=
  ⟨(queue_fifo_drain
     { storage := emptyStorage, isRefreshing := true,
       failedQueue := [{ url := some "/feeds/1" }, { url := some "/feeds/2" }] }
     { url := some "/profile", _retry := true } "new" (.jsErr "boom")).2.2.1,
   (queue_fifo_drain
     { storage := emptyStorage, isRefreshing := true,
       failedQueue := [{ url := some "/feeds/1" }, { url := some "/feeds/2" }] }
     { url := some "/profile", _retry := true } "new" (.jsErr "boom")).2.1⟩

/-! Section: claim C2, the retry-once marker -/

/-- C2 counterexample: a call queued during a refresh is never marked
`_retry = true` (only the refresh-triggering call is, axios.ts line 100),
so when its post-refresh retry fails with 401 again the coordinator starts
a *further* refresh instead of propagating the failure — contradicting the
claim's "including calls that were queued while a refresh was in flight
and then retried". -/
theorem queued_call_second_refresh_cex :
    scnStep2.2 = Phase1.enqueued ∧
    scnRetried._retry = false ∧
    scnStep4.2 = Phase1.refreshStarted "rtok"
      { url := some "/feeds/1", _retry := true,
        authorization := some "Bearer new" } ∧
    scnStep4.1.isRefreshing = true := by decide

/-- C2 (amended): the retry-once guarantee holds exactly for the requests
carrying the `_retry` marker, i.e. for the call that triggered the
refresh: every rejection of a marked request — in particular its second
401 — is propagated to the caller unchanged, with no further refresh and
no state change; and any request handed to a refresh (`refreshStarted`) is
marked.  Queued calls are not marked, so a queued call whose post-refresh
retry fails with 401 can trigger a further refresh. -/
theorem marked_call_retried_at_most_once (st : CoordState) (e : AxiosError)
    (hm : e.config._retry = true) :
    responseErrorInterceptor st e = (st, .reject e) ∧
    (∀ st' e' rt m, (responseErrorInterceptor st' e').2 =
        Phase1.refreshStarted rt m → m._retry = true) := by
  constructor
  · rw [responseErrorInterceptor]
    simp [hm]
  · intro st' e' rt m h
    by_cases hq : triggers401 e'
    · rcases Bool.eq_false_or_eq_true st'.isRefreshing with hf | hf
      · rw [enqueue_step st' e' hq hf] at h
        exact absurd h (by simp)
      · rcases Bool.eq_false_or_eq_true (truthy (getRefreshToken st'.storage))
          with ht | ht
        · rw [refresh_start_step st' e' hq hf ht] at h
          have h' : Phase1.refreshStarted ((getRefreshToken st'.storage).getD "")
              { e'.config with _retry := true } = Phase1.refreshStarted rt m := h
          injection h' with ha hb
          rw [← hb]
        · rw [no_refresh_step st' e' hq hf ht] at h
          exact absurd h (by simp)
    · rw [reject_step st' e' hq] at h
      exact absurd h (by simp)

/-- C2 witness: a marked request whose retry fails with 401 again is
rejected as-is, with the coordinator untouched. -/
theorem marked_call_retried_at_most_once_witness :
    ({ status := some 401, config := { url := some "/profile", _retry := true } } :
        AxiosError).config._retry = true ∧
    responseErrorInterceptor { storage := emptyStorage }
        { status := some 401, config := { url := some "/profile", _retry := true } } =
      ({ storage := emptyStorage },
       .reject { status := some 401,
                 config := { url := some "/profile", _retry := true } }) :=
  ⟨rfl,
   (marked_call_retried_at_most_once { storage := emptyStorage }
     { status := some 401, config := { url := some "/profile", _retry := true } }
     rfl).1⟩

/-! Section: claim C4, atomic credential clearing -/

/-- C4: after a failed refresh (`onRefreshSettled` with a failure), and
likewise after a 401 handled in `Idle` with no refresh credential stored,
both credential reads return absent in the state the coordinator hands to
every subsequent observer; `clearTokens` runs to completion within one
synchronous step of the event loop, so no continuation can observe one
credential cleared with the other still present. -/
theorem failed_refresh_clears_both (st st₂ : CoordState) (c : AxiosCall)
    (e : CoordError) (err : AxiosError)
    (h1 : err.status = some 401) (h2 : err.config._retry = false)
    (h3 : isAuthEndpoint err.config.url = false)
    (h4 : st₂.isRefreshing = false)
    (h5 : getRefreshToken st₂.storage = none) :
    getAccessToken (onRefreshSettled st c (.failure e)).1.storage = none ∧
    getRefreshToken (onRefreshSettled st c (.failure e)).1.storage = none ∧
    getAccessToken (responseErrorInterceptor st₂ err).1.storage = none ∧
    getRefreshToken (responseErrorInterceptor st₂ err).1.storage = none := by
  have hterm : (responseErrorInterceptor st₂ err).1.storage =
      clearTokens st₂.storage := by
    rw [responseErrorInterceptor]
    simp [h1, h2, h3, h4, h5, truthy]
  refine ⟨getAccessToken_clearTokens _, getRefreshToken_clearTokens _, ?_, ?_⟩
  · rw [hterm]; exact getAccessToken_clearTokens _
  · rw [hterm]; exact getRefreshToken_clearTokens _

/-- C4 witness: both reads are absent after a failed refresh and after a
401 with no stored refresh credential. -/
theorem failed_refresh_clears_both_witness :
    getRefreshToken emptyStorage = none ∧
    getAccessToken (onRefreshSettled
        { storage := setAccessToken emptyStorage (some "old"),
          isRefreshing := true }
        { url := some "/profile", _retry := true }
        (.failure (.jsErr "boom"))).1.storage = none ∧
    getRefreshToken (responseErrorInterceptor { storage := emptyStorage }
        { status := some 401, config := { url := some "/feeds/1" } }).1.storage =
      none :=
  ⟨by decide,
   (failed_refresh_clears_both
     { storage := setAccessToken emptyStorage (some "old"), isRefreshing := true }
     { storage := emptyStorage } { url := some "/profile", _retry := true }
     (.jsErr "boom") { status := some 401, config := { url := some "/feeds/1" } }
     rfl rfl (by decide) rfl (by decide)).1,
   (failed_refresh_clears_both
     { storage := setAccessToken emptyStorage (some "old"), isRefreshing := true }
     { storage := emptyStorage } { url := some "/profile", _retry := true }
     (.jsErr "boom") { status := some 401, config := { url := some "/feeds/1" } }
     rfl rfl (by decide) rfl (by decide)).2.2.2⟩

/-! Section: claim C5, the new token is used after a successful refresh -/

/-- C5: when the refresh settles successfully with a (non-empty) access
token `a`, the store reads back `a`; the re-dispatched original request
carries `Bearer a`; a queued continuation retrying any request `q` reads
the already-updated store and attaches `Bearer a`; and the request
interceptor attaches `Bearer a` to every subsequently dispatched call. -/
theorem refresh_success_uses_new_token (st : CoordState) (c q d : AxiosCall)
    (a : String) (ha : a ≠ "") :
    getAccessToken (onRefreshSettled st c (.success a)).1.storage = some a ∧
    (∀ r outs, (onRefreshSettled st c (.success a)).2 =
        Phase2.retryOriginal r outs →
      r.authorization = some ("Bearer " ++ a)) ∧
    (retryQueuedCall (onRefreshSettled st c (.success a)).1.storage q).authorization =
      some ("Bearer " ++ a) ∧
    (requestInterceptor (onRefreshSettled st c (.success a)).1.storage d).authorization =
      some ("Bearer " ++ a) := by
  have hget : getAccessToken (onRefreshSettled st c (.success a)).1.storage =
      some a := getAccessToken_setAccessToken_truthy st.storage a ha
  refine ⟨hget, ?_, ?_, ?_⟩
  · intro r outs h
    simp only [onRefreshSettled] at h
    injection h with h1 h2
    rw [← h1]
  · rw [retryQueuedCall]
    simp [hget]
  · rw [requestInterceptor]
    simp [hget, truthy, ha]

/-- C5 witness: after a successful refresh producing `"new"`, the retried
original, the queued retry, and a fresh dispatch all carry `Bearer new`. -/
theorem refresh_success_uses_new_token_witness :
    ("new" : String) ≠ "" ∧
    getAccessToken (onRefreshSettled
        { storage := setAccessToken emptyStorage (some "old"), isRefreshing := true,
          failedQueue := [{ url := some "/feeds/1" }] }
        { url := some "/profile", _retry := true } (.success "new")).1.storage =
      some "new" ∧
    (retryQueuedCall (onRefreshSettled
        { storage := setAccessToken emptyStorage (some "old"), isRefreshing := true,
          failedQueue := [{ url := some "/feeds/1" }] }
        { url := some "/profile", _retry := true } (.success "new")).1.storage
      { url := some "/feeds/1" }).authorization = some "Bearer new" :=
  ⟨by decide,
   (refresh_success_uses_new_token
     { storage := setAccessToken emptyStorage (some "old"), isRefreshing := true,
       failedQueue := [{ url := some "/feeds/1" }] }
     { url := some "/profile", _retry := true } { url := some "/feeds/1" }
     { url := some "/search" } "new" (by decide)).1,
   (refresh_success_uses_new_token
     { storage := setAccessToken emptyStorage (some "old"), isRefreshing := true,
       failedQueue := [{ url := some "/feeds/1" }] }
     { url := some "/profile", _retry := true } { url := some "/feeds/1" }
     { url := some "/search" } "new" (by decide)).2.2.1⟩

/-! Section: claim C8, no refresh credential stored -/

/-- C8 counterexample: with no refresh token stored, the coordinator
rejects the *original* call with the propagated 401 axios error
(`Promise.reject(error)`, axios.ts line 112), not with the
`'No refresh token available'` error the claim names — only the queued
continuations receive that error via `processQueue`. -/
theorem no_refresh_original_rejection_cex :
    (responseErrorInterceptor { storage := emptyStorage }
        { status := some 401, config := { url := some "/feeds/1" } }).2 =
      Phase1.noRefreshTerminal
        (.axiosErr { status := some 401,
                     config := { url := some "/feeds/1", _retry := true } }) [] ∧
    (CoordError.axiosErr { status := some 401,
                           config := { url := some "/feeds/1",
                                       _retry := true } }) ≠
      CoordError.jsErr "No refresh token available" := by decide

/-- C8 (amended): a non-exempt, not-yet-retried 401 arriving in `Idle`
with no refresh credential stored ends the session: both credentials are
cleared, every queued continuation is rejected with the
`'No refresh token available'` error, the browser is redirected to
`/auth/sign-in`, no refresh request is issued, the state returns to Idle
(`isRefreshing = false`, empty queue) — but the original call is rejected
with the original 401 error (now carrying the retry marker), not with the
no-refresh-credential error. -/
theorem no_refresh_token_session_terminal (st : CoordState) (e : AxiosError)
    (h1 : e.status = some 401) (h2 : e.config._retry = false)
    (h3 : isAuthEndpoint e.config.url = false)
    (h4 : st.isRefreshing = false)
    (h5 : getRefreshToken st.storage = none) :
    responseErrorInterceptor st e =
      ({ storage := clearTokens st.storage, isRefreshing := false,
         failedQueue := [], locationHref := some "/auth/sign-in" },
       Phase1.noRefreshTerminal
         (.axiosErr { e with config := { e.config with _retry := true } })
         (processQueue st.failedQueue
           (some (.jsErr "No refresh token available")))) ∧
    getAccessToken (responseErrorInterceptor st e).1.storage = none ∧
    getRefreshToken (responseErrorInterceptor st e).1.storage = none := by
  have hmain : responseErrorInterceptor st e =
      ({ storage := clearTokens st.storage, isRefreshing := false,
         failedQueue := [], locationHref := some "/auth/sign-in" },
       Phase1.noRefreshTerminal
         (.axiosErr { e with config := { e.config with _retry := true } })
         (processQueue st.failedQueue
           (some (.jsErr "No refresh token available")))) := by
    rw [responseErrorInterceptor]
    simp [h1, h2, h3, h4, h5, truthy]
  refine ⟨hmain, ?_, ?_⟩ <;> rw [hmain]
  · exact getAccessToken_clearTokens _
  · exact getRefreshToken_clearTokens _

/-- C8 witness: the session-terminal outcome at a concrete idle state with
no refresh token. -/
theorem no_refresh_token_session_terminal_witness :
    getRefreshToken emptyStorage = none ∧
    responseErrorInterceptor { storage := emptyStorage }
        { status := some 401, config := { url := some "/feeds/1" } } =
      ({ storage := clearTokens emptyStorage, isRefreshing := false,
         failedQueue := [], locationHref := some "/auth/sign-in" },
       Phase1.noRefreshTerminal
         (.axiosErr { status := some 401,
                      config := { url := some "/feeds/1", _retry := true } }) []) :=
  ⟨by decide,
   (no_refresh_token_session_terminal { storage := emptyStorage }
     { status := some 401, config := { url := some "/feeds/1" } }
     rfl rfl (by decide) rfl (by decide)).1⟩

end ReelsAI
